import Mathlib

/-!
Verification of the PowerCore closed-loop feedrate governor
(`klippy/extras/powercore.py`): the PWM duty-cycle reader, the PID
controller driving it, and the move-scaling path.

Python floats are modelled as exact rationals (`ℚ`).  The mutable
objects of the source (`PowerCore`, the `simple_pid` controller, the
`Move` handed to `check_move`) become explicit state records, and each
method becomes a function from old state to new state.
-/

/-- Clamp `x` into the interval `[lo, hi]`, as `simple_pid`'s
`_clamp` does for its `output_limits`. -/
def clamp (lo hi x : ℚ) : ℚ := min hi (max lo x)

/-- Python's `round(x)` tie-to-even rounding of a rational to an
integer: nearest integer, ties going to the even candidate. -/
def roundHalfEven (x : ℚ) : ℤ :=
  if x - (⌊x⌋ : ℚ) < 1/2 then ⌊x⌋
  else if 1/2 < x - (⌊x⌋ : ℚ) then ⌊x⌋ + 1
  else if ⌊x⌋ % 2 = 0 then ⌊x⌋ else ⌊x⌋ + 1

/-- Python's `round(x, 3)`: round to 3 decimal digits (ties to even). -/
def round3 (x : ℚ) : ℚ := (roundHalfEven (x * 1000) : ℚ) / 1000

/-- Modelled from the spec: the PID controller state of the external
`simple_pid.PID` object used by `PowerCore` (the library's code is not
part of this repository).  Fields follow §4.2 ControllerState: gains,
setpoint, output limits, the integral accumulator, and the
previous-error / previous-sample-time memory (`none` before the first
call and after `reset`). -/
structure PIDState where
  Kp : ℚ
  Ki : ℚ
  Kd : ℚ
  setpoint : ℚ
  outMin : ℚ
  outMax : ℚ
  integral : ℚ
  prev : Option (ℚ × ℚ)
  deriving DecidableEq, Repr

/-- A freshly constructed controller: zero integral, no history. -/
def PIDState.init (Kp Ki Kd setpoint outMin outMax : ℚ) : PIDState :=
  ⟨Kp, Ki, Kd, setpoint, outMin, outMax, 0, none⟩

/-- Modelled from the spec: `PID.reset()` clears the integral
accumulator and the previous-error/previous-time memory, leaving
gains, setpoint and output limits untouched (§4.2). -/
def PIDState.reset (s : PIDState) : PIDState :=
  { s with integral := 0, prev := none }

/-- Modelled from the spec: one controller step
`output = pid(measurement)` at time `now` (§4.2).
`error = setpoint - measurement`; on the first call, or when
`Δt ≤ 0`, the integral and derivative contribute nothing; otherwise
`integral += error*Δt` and `derivative = (error - prev_error)/Δt`;
the raw output `Kp*error + Ki*integral + Kd*derivative` is clamped to
`[outMin, outMax]`, and anti-windup freezes the integral accumulator
when clamping occurred.  Returns (output, new state). -/
def PIDState.step (s : PIDState) (measurement now : ℚ) : ℚ × PIDState :=
  let error := s.setpoint - measurement
  match s.prev with
  | none =>
      let raw := s.Kp * error + s.Ki * s.integral
      let output := clamp s.outMin s.outMax raw
      (output, { s with prev := some (error, now) })
  | some (e0, t0) =>
      let dt := now - t0
      if dt ≤ 0 then
        let raw := s.Kp * error + s.Ki * s.integral
        let output := clamp s.outMin s.outMax raw
        (output, { s with prev := some (error, now) })
      else
        let integral2 := s.integral + error * dt
        let derivative := (error - e0) / dt
        let raw := s.Kp * error + s.Ki * integral2 + s.Kd * derivative
        let output := clamp s.outMin s.outMax raw
        let integral3 := if raw = output then integral2 else s.integral
        (output, { s with integral := integral3, prev := some (error, now) })

/-- The raw configuration values consumed by `PowerCore.__init__` and
`PowerCorePWMReader.__init__` through `config.getfloat`/`getint`. -/
structure RawConfig where
  target_duty_cycle : ℚ
  min_feedrate : ℚ
  max_feedrate : ℚ
  powercore_adjustment_accel : ℚ
  kp : ℚ
  ki : ℚ
  kd : ℚ
  alrt_pwm_frequency : ℚ
  alrt_report_interval : ℚ
  additional_timeout_ticks : ℤ
  deriving DecidableEq, Repr

/-- The immutable configuration a successfully constructed `PowerCore`
holds (feedrates in mm/min, per the source comments). -/
structure PowerCoreConfig where
  target_duty_cycle : ℚ
  min_feedrate : ℚ
  max_feedrate : ℚ
  adjustment_accel : ℚ
  deriving DecidableEq, Repr

/-- The mutable part of a `PowerCore` object: the scaling flag and the
PID controller it owns. -/
structure PowerCoreState where
  scaling_enabled : Bool
  pid : PIDState
  deriving DecidableEq, Repr

/-- `PowerCore.__init__` together with the `PowerCorePWMReader` it
constructs: each `config.getfloat`/`getint` call enforces its
`minval`/`maxval`/`above` bound and raises a config error on
violation, modelled by `none`.  On success the object starts with
`scaling_enabled = True` and a fresh PID controller with
`setpoint = target_duty_cycle` and `output_limits = (0, 1)`. -/
def mkPowerCore (c : RawConfig) : Option (PowerCoreConfig × PowerCoreState) :=
  if 0 ≤ c.target_duty_cycle ∧ c.target_duty_cycle ≤ 1
      ∧ 0 ≤ c.min_feedrate
      ∧ 0 ≤ c.max_feedrate
      ∧ 0 < c.powercore_adjustment_accel
      ∧ 0 < c.alrt_pwm_frequency
      ∧ 1/10 < c.alrt_report_interval
      ∧ 0 ≤ c.additional_timeout_ticks then
    some (⟨c.target_duty_cycle, c.min_feedrate, c.max_feedrate,
           c.powercore_adjustment_accel⟩,
          ⟨true, PIDState.init c.kp c.ki c.kd c.target_duty_cycle 0 1⟩)
  else none

/-- A `Move` as seen by the governor: its original squared cruise
velocity and the list of `set_speed(velocity, accel)` overrides
applied to it (most recent first). -/
structure Move where
  max_cruise_v2 : ℚ
  speed_overrides : List (ℚ × ℚ)
  deriving DecidableEq, Repr

/-- `Move.set_speed(velocity, accel)`: records a velocity/acceleration
ceiling override on the move. -/
def Move.set_speed (m : Move) (velocity accel : ℚ) : Move :=
  { m with speed_overrides := (velocity, accel) :: m.speed_overrides }

/-- `PowerCorePWMReader.get_current_duty_cycle`: the raw counter
estimate rounded to 3 decimal places. -/
def getCurrentDutyCycle (rawDuty : ℚ) : ℚ := round3 rawDuty

/-- The value interpolated into the `GET_DUTY_CYCLE` response text by
`PowerCore.cmd_get_duty_cycle`. -/
def cmd_get_duty_cycle (rawDuty : ℚ) : ℚ := getCurrentDutyCycle rawDuty

/-- The data carried by the `respond_info` message `scale_move` emits:
duty cycle, controller output, and feedrate. -/
structure ScaleReport where
  duty : ℚ
  output : ℚ
  feedrate : ℚ
  deriving DecidableEq, Repr

/-- `PowerCore.scale_move(move)`: reads the rounded duty cycle, steps
the PID controller on it, maps the output linearly onto
`[min_feedrate, max_feedrate]`, and calls
`move.set_speed(feedrate * 60, adjustment_accel)` exactly as the
source does.  `rawDuty` is the PWM counter's raw estimate and `now`
the reactor clock passed to the controller. -/
def scale_move (cfg : PowerCoreConfig) (st : PowerCoreState)
    (rawDuty now : ℚ) (move : Move) :
    PowerCoreState × Move × ScaleReport :=
  let current_duty_cycle := getCurrentDutyCycle rawDuty
  let stepResult := st.pid.step current_duty_cycle now
  let output := stepResult.1
  let feedrate := cfg.min_feedrate + output * (cfg.max_feedrate - cfg.min_feedrate)
  let move2 := move.set_speed (feedrate * 60) cfg.adjustment_accel
  ({ st with pid := stepResult.2 }, move2,
   ⟨current_duty_cycle, output, feedrate⟩)

/-- `PowerCore.check_move(move)`: no-op when scaling is disabled,
otherwise `scale_move`.  The third component is the `respond_info`
report, `none` when nothing was emitted. -/
def check_move (cfg : PowerCoreConfig) (st : PowerCoreState)
    (rawDuty now : ℚ) (move : Move) :
    PowerCoreState × Move × Option ScaleReport :=
  if !st.scaling_enabled then (st, move, none)
  else
    let r := scale_move cfg st rawDuty now move
    (r.1, r.2.1, some r.2.2)

/-- `PowerCore.enable_scaling`: resets the PID controller, then sets
the flag. -/
def enable_scaling (st : PowerCoreState) : PowerCoreState :=
  { st with pid := st.pid.reset, scaling_enabled := true }

/-- `PowerCore.disable_scaling`: clears the flag only. -/
def disable_scaling (st : PowerCoreState) : PowerCoreState :=
  { st with scaling_enabled := false }

/-- The configuration of the worked scenario: the source defaults
`min_feedrate = 0.1`, `max_feedrate = 64.0`,
`powercore_adjustment_accel = 500`, `target_duty_cycle = 0.75`. -/
def cfg0 : PowerCoreConfig := ⟨3/4, 1/10, 64, 500⟩

/-- A freshly constructed `PowerCore` state with default gains
`Kp = 1`, `Ki = 0`, `Kd = 0`: scaling enabled, clean controller with
`setpoint = 0.75` and output limits `(0, 1)`. -/
def st0 : PowerCoreState := ⟨true, PIDState.init 1 0 0 (3/4) 0 1⟩

/-- A move that has received no override yet. -/
def move0 : Move := ⟨1, []⟩

/-- A raw configuration whose individual bounds all pass but whose
`max_feedrate` (1 mm/min) is below its `min_feedrate` (5 mm/min). -/
def badRaw : RawConfig := ⟨3/4, 5, 1, 500, 1, 0, 0, 100, 2/10, 0⟩

/-- The tie-to-even integer rounding is off by at most one half. -/
lemma abs_roundHalfEven_sub_le (x : ℚ) : |(roundHalfEven x : ℚ) - x| ≤ 1/2 := by
  have h1 : (⌊x⌋ : ℚ) ≤ x := Int.floor_le x
  have h2 : x < (⌊x⌋ : ℚ) + 1 := Int.lt_floor_add_one x
  unfold roundHalfEven
  split_ifs <;> (push_cast; rw [abs_le]; constructor <;> linarith)

/-- Rounding to 3 decimal places moves a value by at most `1/2000`. -/
lemma abs_round3_sub_le (x : ℚ) : |round3 x - x| ≤ 1/2000 := by
  have h := abs_roundHalfEven_sub_le (x * 1000)
  rw [abs_le] at h ⊢
  unfold round3
  constructor <;> linarith [h.1, h.2]

/-- `round3` always lands on an integer multiple of `0.001`. -/
lemma round3_eq_int_div (x : ℚ) : ∃ n : ℤ, round3 x = (n : ℚ) / 1000 :=
  ⟨roundHalfEven (x * 1000), rfl⟩

/-- `clamp` really lands in the interval when it is nonempty. -/
lemma clamp_mem (lo hi x : ℚ) (h : lo ≤ hi) :
    lo ≤ clamp lo hi x ∧ clamp lo hi x ≤ hi :=
  ⟨le_min h (le_max_left lo x), min_le_left hi _⟩

/-- Every controller step output lies within the output limits. -/
lemma pid_step_output_mem (s : PIDState) (m t : ℚ) (h : s.outMin ≤ s.outMax) :
    s.outMin ≤ (s.step m t).1 ∧ (s.step m t).1 ≤ s.outMax := by
  cases hp : s.prev with
  | none =>
      simp only [PIDState.step, hp]
      exact clamp_mem _ _ _ h
  | some p =>
      obtain ⟨e0, t0⟩ := p
      simp only [PIDState.step, hp]
      split_ifs <;> exact clamp_mem _ _ _ h

/-- With controller limits `(0, 1)` and a nonempty feedrate band, the
feedrate computed by `scale_move` lies in
`[min_feedrate, max_feedrate]`. -/
lemma scale_move_feedrate_mem (cfg : PowerCoreConfig) (st : PowerCoreState)
    (rawDuty now : ℚ) (move : Move)
    (hband : cfg.min_feedrate ≤ cfg.max_feedrate)
    (hlo : st.pid.outMin = 0) (hhi : st.pid.outMax = 1) :
    cfg.min_feedrate ≤ (scale_move cfg st rawDuty now move).2.2.feedrate
    ∧ (scale_move cfg st rawDuty now move).2.2.feedrate ≤ cfg.max_feedrate := by
  have hout := pid_step_output_mem st.pid (getCurrentDutyCycle rawDuty) now
    (by rw [hlo, hhi]; norm_num)
  rw [hlo] at hout
  rw [hhi] at hout
  simp only [scale_move]
  constructor
  · nlinarith [hout.1, hout.2]
  · nlinarith [hout.1, hout.2]

/-- Claim C1 (code bug evidence): at the spec's worked scenario
(`min_feedrate = 0.1`, `max_feedrate = 64.0`, duty estimate `0.25`,
first controller call, so output `0.5` and
`feedrate = 0.1 + 0.5*63.9 = 32.05` mm/min), `check_move` passes
`feedrate * 60 = 1923` to `set_speed`, not `feedrate / 60 ≈ 0.5342`:
the source multiplies by 60 although its own comment says feedrate is
mm/min and `set_speed` expects mm/s. -/
theorem C1_set_speed_gets_feedrate_times_sixty :
    (check_move cfg0 st0 (1/4) 1 move0).2.1.speed_overrides = [(1923, 500)]
    ∧ (check_move cfg0 st0 (1/4) 1 move0).2.2 = some ⟨1/4, 1/2, 641/20⟩
    ∧ (1923 : ℚ) ≠ (641/20) / 60 := by
  refine ⟨?_, ?_, by norm_num⟩ <;>
    norm_num [check_move, scale_move, getCurrentDutyCycle, round3, roundHalfEven,
      PIDState.step, clamp, cfg0, st0, move0, Move.set_speed, PIDState.init]

/-- Claim C2 (code bug evidence): at the same scenario the velocity
passed to `set_speed` is `1923`, and `1923 * 60 = 115380` lies far
outside `[min_feedrate, max_feedrate] = [0.1, 64]`; the computed
feedrate `32.05` itself does lie inside the band. -/
theorem C2_velocity_times_sixty_outside_band :
    (check_move cfg0 st0 (1/4) 1 move0).2.1.speed_overrides = [(1923, 500)]
    ∧ ¬ (cfg0.min_feedrate ≤ (1923 : ℚ) * 60
          ∧ (1923 : ℚ) * 60 ≤ cfg0.max_feedrate)
    ∧ ((check_move cfg0 st0 (1/4) 1 move0).2.2).map ScaleReport.feedrate
        = some (641/20)
    ∧ (cfg0.min_feedrate ≤ (641/20 : ℚ)
        ∧ (641/20 : ℚ) ≤ cfg0.max_feedrate) := by
  refine ⟨?_, by norm_num [cfg0], ?_, by norm_num [cfg0]⟩ <;>
    norm_num [check_move, scale_move, getCurrentDutyCycle, round3, roundHalfEven,
      PIDState.step, clamp, cfg0, st0, move0, Move.set_speed, PIDState.init]

/-- Claim C3 counterexample: a configuration with
`max_feedrate = 1 < 5 = min_feedrate` is accepted — construction
succeeds, refuting the claim that it fails fatally. -/
theorem C3_counterexample :
    badRaw.max_feedrate < badRaw.min_feedrate
    ∧ (mkPowerCore badRaw).isSome = true := by
  norm_num [mkPowerCore, badRaw]

/-- Claim C3 (amended): construction validates each bound separately
(`target_duty_cycle ∈ [0,1]`, `min_feedrate ≥ 0`, `max_feedrate ≥ 0`,
accel and frequency positive, report interval above 0.1, timeout
ticks nonnegative) but never compares `max_feedrate` with
`min_feedrate`: every configuration passing the individual checks is
accepted even when `max_feedrate < min_feedrate`. -/
theorem C3_no_cross_validation (c : RawConfig)
    (h1 : 0 ≤ c.target_duty_cycle) (h2 : c.target_duty_cycle ≤ 1)
    (h3 : 0 ≤ c.min_feedrate) (h4 : 0 ≤ c.max_feedrate)
    (h5 : 0 < c.powercore_adjustment_accel)
    (h6 : 0 < c.alrt_pwm_frequency)
    (h7 : 1/10 < c.alrt_report_interval)
    (h8 : 0 ≤ c.additional_timeout_ticks)
    (hlt : c.max_feedrate < c.min_feedrate) :
    (mkPowerCore c).isSome = true := by
  unfold mkPowerCore
  rw [if_pos ⟨h1, h2, h3, h4, h5, h6, h7, h8⟩]
  rfl

/-- Witness for C3: the amended theorem applied to `badRaw`. -/
theorem C3_no_cross_validation_witness :
    (mkPowerCore badRaw).isSome = true :=
  C3_no_cross_validation badRaw (by norm_num [badRaw]) (by norm_num [badRaw])
    (by norm_num [badRaw]) (by norm_num [badRaw]) (by norm_num [badRaw])
    (by norm_num [badRaw]) (by norm_num [badRaw]) (by norm_num [badRaw])
    (by norm_num [badRaw])

/-- Claim C4 counterexample: at zero error (measurement = setpoint =
0.75, gains Kp=1, Ki=0, Kd=0) the controller output is not the
midpoint 0.5 of the output limits and the feedrate is not 32.05. -/
theorem C4_counterexample :
    ((check_move cfg0 st0 (3/4) 1 move0).2.2).map ScaleReport.output
        ≠ some (1/2)
    ∧ ((check_move cfg0 st0 (3/4) 1 move0).2.2).map ScaleReport.feedrate
        ≠ some (641/20) := by
  constructor <;>
    norm_num [check_move, scale_move, getCurrentDutyCycle, round3, roundHalfEven,
      PIDState.step, clamp, cfg0, st0, move0, Move.set_speed, PIDState.init]

/-- Claim C4 (amended): with target_duty_cycle = 0.75, Kp = 1,
Ki = 0, Kd = 0 and measurement 0.75 (zero error), the raw controller
output `Kp*error + Ki*integral + Kd*derivative` is 0; clamped to the
limits `(0, 1)` it stays 0, so the feedrate is
`0.1 + 0*63.9 = 0.1` mm/min, the bottom of the band. -/
theorem C4_zero_error_gives_min_feedrate :
    (check_move cfg0 st0 (3/4) 1 move0).2.2 = some ⟨3/4, 0, 1/10⟩ := by
  norm_num [check_move, scale_move, getCurrentDutyCycle, round3, roundHalfEven,
    PIDState.step, clamp, cfg0, st0, move0, Move.set_speed, PIDState.init]

/-- Claim C5: with scaling disabled, `check_move` leaves the governor
state and the move untouched, records no `set_speed` override, and
emits no report. -/
theorem C5_disabled_is_noop (cfg : PowerCoreConfig) (st : PowerCoreState)
    (rawDuty now : ℚ) (move : Move) (h : st.scaling_enabled = false) :
    check_move cfg st rawDuty now move = (st, move, none) := by
  simp [check_move, h]

/-- Witness for C5 at a concrete disabled state. -/
theorem C5_disabled_is_noop_witness :
    check_move cfg0 ⟨false, st0.pid⟩ (1/4) 1 move0
      = (⟨false, st0.pid⟩, move0, none) :=
  C5_disabled_is_noop cfg0 ⟨false, st0.pid⟩ (1/4) 1 move0 rfl

/-- Claim C6: after any `enable_scaling` call the flag is set, the
controller's integral accumulator is 0 and its previous-error /
previous-time memory is cleared, while gains, setpoint and output
limits are preserved — whatever the state before, including a
non-zero integral accumulated before disabling. -/
theorem C6_enable_resets_controller (st : PowerCoreState) :
    (enable_scaling st).scaling_enabled = true
    ∧ (enable_scaling st).pid.integral = 0
    ∧ (enable_scaling st).pid.prev = none
    ∧ (enable_scaling st).pid.Kp = st.pid.Kp
    ∧ (enable_scaling st).pid.Ki = st.pid.Ki
    ∧ (enable_scaling st).pid.Kd = st.pid.Kd
    ∧ (enable_scaling st).pid.setpoint = st.pid.setpoint
    ∧ (enable_scaling st).pid.outMin = st.pid.outMin
    ∧ (enable_scaling st).pid.outMax = st.pid.outMax := by
  simp [enable_scaling, PIDState.reset]

/-- Claim C7: `disable_scaling` clears the enabled flag and leaves the
whole controller state (gains, setpoint, limits, integral, memory)
exactly as it was; the immutable configuration is not even an input. -/
theorem C7_disable_touches_only_flag (st : PowerCoreState) :
    (disable_scaling st).scaling_enabled = false
    ∧ (disable_scaling st).pid = st.pid := by
  simp [disable_scaling]

/-- Claim C8: the duty cycle reported by `get_current_duty_cycle`, and
hence by the `GET_DUTY_CYCLE` command, is the raw estimate rounded to
3 decimal places: it is an integer multiple of 0.001 and within
1/2000 of the raw estimate. -/
theorem C8_report_is_rounded (rawDuty : ℚ) :
    cmd_get_duty_cycle rawDuty = getCurrentDutyCycle rawDuty
    ∧ (∃ n : ℤ, getCurrentDutyCycle rawDuty = (n : ℚ) / 1000)
    ∧ |getCurrentDutyCycle rawDuty - rawDuty| ≤ 1/2000 :=
  ⟨rfl, round3_eq_int_div rawDuty, abs_round3_sub_le rawDuty⟩

/-- Claim C9: on every enabled `check_move` call the measurement fed
to the PID controller is the 3-decimal-rounded duty cycle, not the
raw estimate — the post-call controller state is exactly the result
of stepping on `round3 rawDuty`, the emitted report carries that
rounded value, and the quantization is at most 1/2000 = 0.0005. -/
theorem C9_controller_sees_rounded_duty (cfg : PowerCoreConfig)
    (st : PowerCoreState) (rawDuty now : ℚ) (move : Move)
    (h : st.scaling_enabled = true) :
    (check_move cfg st rawDuty now move).1.pid
        = (st.pid.step (round3 rawDuty) now).2
    ∧ ((check_move cfg st rawDuty now move).2.2).map ScaleReport.duty
        = some (round3 rawDuty)
    ∧ |round3 rawDuty - rawDuty| ≤ 1/2000 := by
  refine ⟨?_, ?_, abs_round3_sub_le rawDuty⟩ <;>
    simp [check_move, scale_move, h, getCurrentDutyCycle]

/-- Witness for C9 at a concrete enabled state. -/
theorem C9_controller_sees_rounded_duty_witness :
    (check_move cfg0 st0 (1/4) 1 move0).1.pid
        = (st0.pid.step (round3 (1/4)) 1).2
    ∧ ((check_move cfg0 st0 (1/4) 1 move0).2.2).map ScaleReport.duty
        = some (round3 (1/4))
    ∧ |round3 (1/4) - (1/4 : ℚ)| ≤ 1/2000 :=
  C9_controller_sees_rounded_duty cfg0 st0 (1/4) 1 move0 rfl

/-- Claim C10: `enable_scaling` resets the controller unconditionally,
also when scaling is already enabled: an Enabled→Enabled call clears
the integral accumulator and the previous-error/previous-time
memory. -/
theorem C10_enable_resets_even_when_enabled (st : PowerCoreState)
    (h : st.scaling_enabled = true) :
    (enable_scaling st).pid.integral = 0
    ∧ (enable_scaling st).pid.prev = none
    ∧ (enable_scaling st).scaling_enabled = true := by
  simp [enable_scaling, PIDState.reset]

/-- Witness for C10: an already-enabled state with a dirty controller
(non-zero integral, non-empty memory). -/
theorem C10_enable_resets_even_when_enabled_witness :
    (enable_scaling ⟨true, ⟨1, 0, 0, 3/4, 0, 1, 5, some (1, 1)⟩⟩).pid.integral = 0
    ∧ (enable_scaling ⟨true, ⟨1, 0, 0, 3/4, 0, 1, 5, some (1, 1)⟩⟩).pid.prev = none
    ∧ (enable_scaling ⟨true, ⟨1, 0, 0, 3/4, 0, 1, 5, some (1, 1)⟩⟩).scaling_enabled
        = true :=
  C10_enable_resets_even_when_enabled ⟨true, ⟨1, 0, 0, 3/4, 0, 1, 5, some (1, 1)⟩⟩ rfl
